import Mathlib

/-!
Shallow embedding of the UAV_VL flight-dynamics core.

The JavaScript source is translated into pure Lean functions over `ℚ`:
  * `PhysicsEngine` (collision handling, motor mixing, force/torque model,
    rigid-body integration, battery model) from the physics-engine source file;
  * `PIDController` / `CascadedPIDController` from pid-controller.js;
  * `FlightController.applyRTH` from the flight-controller source file.

State mutation becomes explicit state passing.  External numeric primitives
that the JavaScript code obtains from the host platform or from the THREE.js
library (Math.sqrt via Vector3.length, Math.sin/cos/atan2, Math.PI as a
floating constant, the module-level Perlin noise singleton seeded from
Math.random(), and THREE's Euler/Quaternion conversions) are collected in an
`ExtFns` record of function parameters; every use site mirrors the corresponding
call in the source.  JavaScript numbers are modelled as exact rationals.
-/

/-- 3-component vector, mirroring THREE.Vector3 (x, y, z rational). -/
structure Vec3 where
  x : ℚ
  y : ℚ
  z : ℚ
  deriving DecidableEq, Repr

/-- Quaternion, mirroring THREE.Quaternion; the identity is (0,0,0,1). -/
structure Quat where
  x : ℚ
  y : ℚ
  z : ℚ
  w : ℚ
  deriving DecidableEq, Repr

/-- External numeric primitives used by the source but supplied by the host
platform / THREE.js library, abstracted as parameters:
`sqrt` backs THREE `.length()`; `sin`/`cos`/`atan2` back the Math functions;
`pi` is the floating constant Math.PI; `noise3D` is the module-level Perlin
noise singleton (seeded from Math.random(), hence external); `quatFromEuler`
is THREE.Quaternion.setFromEuler with order XYZ; `eulerFromQuat` is
THREE.Euler.setFromQuaternion (returning the XYZ angles as a `Vec3`). -/
structure ExtFns where
  sqrt : ℚ → ℚ
  sin : ℚ → ℚ
  cos : ℚ → ℚ
  atan2 : ℚ → ℚ → ℚ
  pi : ℚ
  noise3D : ℚ → ℚ → ℚ → ℚ
  quatFromEuler : ℚ → ℚ → ℚ → Quat
  eulerFromQuat : Quat → Vec3

/-- THREE.Vector3.add -/
def Vec3.add (a b : Vec3) : Vec3 := ⟨a.x + b.x, a.y + b.y, a.z + b.z⟩

/-- THREE.Vector3.sub -/
def Vec3.sub (a b : Vec3) : Vec3 := ⟨a.x - b.x, a.y - b.y, a.z - b.z⟩

/-- THREE.Vector3.multiplyScalar -/
def Vec3.multiplyScalar (a : Vec3) (s : ℚ) : Vec3 := ⟨a.x * s, a.y * s, a.z * s⟩

/-- THREE.Vector3.divideScalar (multiplies by 1/s; in ℚ, 1/0 = 0 where
JavaScript would produce Infinity — relevant only to the division-guard
analysis, where we exhibit the zero divisor itself). -/
def Vec3.divideScalar (a : Vec3) (s : ℚ) : Vec3 := a.multiplyScalar (1 / s)

/-- THREE.Vector3.dot -/
def Vec3.dot (a b : Vec3) : ℚ := a.x * b.x + a.y * b.y + a.z * b.z

/-- THREE.Vector3.lengthSq -/
def Vec3.lengthSq (a : Vec3) : ℚ := a.x * a.x + a.y * a.y + a.z * a.z

/-- THREE.Vector3.length = sqrt(lengthSq) -/
def Vec3.length (ext : ExtFns) (a : Vec3) : ℚ := ext.sqrt a.lengthSq

/-- THREE.Vector3.normalize: divideScalar(length() or 1 when length is 0). -/
def Vec3.normalize (ext : ExtFns) (a : Vec3) : Vec3 :=
  let l := a.length ext
  a.divideScalar (if l = 0 then 1 else l)

/-- THREE.Vector3.applyQuaternion -/
def Vec3.applyQuaternion (v : Vec3) (q : Quat) : Vec3 :=
  let ix := q.w * v.x + q.y * v.z - q.z * v.y
  let iy := q.w * v.y + q.z * v.x - q.x * v.z
  let iz := q.w * v.z + q.x * v.y - q.y * v.x
  let iw := (-q.x) * v.x - q.y * v.y - q.z * v.z
  ⟨ix * q.w + iw * (-q.x) + iy * (-q.z) - iz * (-q.y),
   iy * q.w + iw * (-q.y) + iz * (-q.x) - ix * (-q.z),
   iz * q.w + iw * (-q.z) + ix * (-q.y) - iy * (-q.x)⟩

/-- THREE.Quaternion.multiply (this × q). -/
def Quat.mul (a b : Quat) : Quat :=
  ⟨a.x * b.w + a.w * b.x + a.y * b.z - a.z * b.y,
   a.y * b.w + a.w * b.y + a.z * b.x - a.x * b.z,
   a.z * b.w + a.w * b.z + a.x * b.y - a.y * b.x,
   a.w * b.w - a.x * b.x - a.y * b.y - a.z * b.z⟩

/-- THREE.Quaternion.normalize: zero-length quaternions become the identity,
otherwise each component is divided by the length. -/
def Quat.normalize (ext : ExtFns) (q : Quat) : Quat :=
  let l := ext.sqrt (q.x * q.x + q.y * q.y + q.z * q.z + q.w * q.w)
  if l = 0 then ⟨0, 0, 0, 1⟩ else ⟨q.x / l, q.y / l, q.z / l, q.w / l⟩

/- ### Aircraft / environment configuration (constructor inputs) -/

/-- config.frame.material keys of the frameMultiplier table. -/
inductive FrameMaterial where
  | carbon
  | aluminum
  | plastic
  deriving DecidableEq, Repr

/-- The frameMultiplier lookup in calculateTotalMass. -/
def frameMaterialMultiplier : FrameMaterial → ℚ
  | .carbon => 1.0
  | .aluminum => 1.3
  | .plastic => 1.5

/-- config.frame.type strings: getMotorCount tests `includes('quad')`,
then equality with 'hexa' / 'octa'. -/
inductive FrameType where
  | quadX
  | quadPlus
  | hexa
  | octa
  deriving DecidableEq, Repr

/-- config.payload.type keys of the masses table in getPayloadMass
(`nonePayload` is the source key 'none'). -/
inductive PayloadType where
  | nonePayload
  | cameraSmall
  | cameraMedium
  | cameraLarge
  | sensorPayload
  | delivery
  deriving DecidableEq, Repr

/-- The masses table in getPayloadMass (default 0 is unreachable over the
enumerated keys). -/
def payloadMassTable : PayloadType → ℚ
  | .nonePayload => 0
  | .cameraSmall => 50
  | .cameraMedium => 100
  | .cameraLarge => 200
  | .sensorPayload => 50
  | .delivery => 300

structure FrameConfig where
  type : FrameType
  size : ℚ
  material : FrameMaterial
  deriving DecidableEq, Repr

structure PropellerConfig where
  size : ℚ
  pitch : ℚ
  blades : ℚ
  deriving DecidableEq, Repr

structure MotorConfig where
  kv : ℚ
  deriving DecidableEq, Repr

structure BatteryConfig where
  cells : ℚ
  capacity : ℚ
  deriving DecidableEq, Repr

structure PayloadConfig where
  type : PayloadType
  deriving DecidableEq, Repr

/-- The uavConfig object consumed by the PhysicsEngine constructor. -/
structure UAVConfig where
  frame : FrameConfig
  propellers : PropellerConfig
  motors : MotorConfig
  battery : BatteryConfig
  payload : PayloadConfig
  deriving DecidableEq, Repr

/-- The environmentConfig object (temperature °C, wind speed, wind direction
in degrees).  The terrain height function lives on the global simulator
object, not here, and is passed to `update` separately. -/
structure EnvConfig where
  temperature : ℚ
  windSpeed : ℚ
  windDirection : ℚ
  deriving DecidableEq, Repr

/-- PhysicsEngine.getMotorCount. -/
def getMotorCount (c : UAVConfig) : ℕ :=
  match c.frame.type with
  | .quadX => 4
  | .quadPlus => 4
  | .hexa => 6
  | .octa => 8

/-- PhysicsEngine.getPayloadMass. -/
def getPayloadMass (c : UAVConfig) : ℚ := payloadMassTable c.payload.type

/-- PhysicsEngine.calculateTotalMass (grams). -/
def calculateTotalMass (c : UAVConfig) : ℚ :=
  let frameMass := 200 * (c.frame.size / 450) * frameMaterialMultiplier c.frame.material
  let motorCount : ℚ := (getMotorCount c : ℚ)
  let motorMass := 40 * motorCount
  let propMass := c.propellers.size * 2 * motorCount
  let batteryMass := c.battery.capacity * 0.15
  let fcMass : ℚ := 30
  let payloadMass := getPayloadMass c
  frameMass + motorMass + propMass + batteryMass + fcMass + payloadMass

/-- PhysicsEngine.calculateAirDensity. -/
def calculateAirDensity (env : EnvConfig) : ℚ :=
  let temp := env.temperature + 273.15
  let tempRef : ℚ := 288.15
  let densityRef : ℚ := 1.225
  densityRef * (tempRef / temp)

/-- The immutable engine-level fields set by the PhysicsEngine constructor
and calculateProperties. -/
structure Engine where
  config : UAVConfig
  env : EnvConfig
  gravity : ℚ
  airDensity : ℚ
  dragCoefficient : ℚ
  frontalArea : ℚ
  totalMass : ℚ
  thrustCoefficient : ℚ
  motorKv : ℚ
  maxRPM : ℚ
  maxOmega : ℚ
  maxThrustPerMotor : ℚ
  armLength : ℚ
  batteryCapacityAh : ℚ
  homePosition : Vec3

/-- PhysicsEngine constructor + calculateProperties: derives the cached
engine constants from the configuration (`ext.pi` is Math.PI in the
maxOmega formula). -/
def mkEngine (ext : ExtFns) (config : UAVConfig) (env : EnvConfig) : Engine :=
  let totalMass := calculateTotalMass config / 1000
  let propSize := config.propellers.size * 0.0254
  let bladeMultiplier := 1 + (config.propellers.blades - 2) * 0.1
  let thrustCoefficient := 0.00001 * propSize ^ 4 * config.propellers.pitch * bladeMultiplier
  let batteryVoltage := config.battery.cells * 4.2
  let maxRPM := config.motors.kv * batteryVoltage
  let maxOmega := maxRPM * 2 * ext.pi / 60
  { config := config
    env := env
    gravity := 9.81
    airDensity := calculateAirDensity env
    dragCoefficient := 0.5
    frontalArea := (config.frame.size / 1000) ^ 2
    totalMass := totalMass
    thrustCoefficient := thrustCoefficient
    motorKv := config.motors.kv
    maxRPM := maxRPM
    maxOmega := maxOmega
    maxThrustPerMotor := thrustCoefficient * maxOmega * maxOmega
    armLength := config.frame.size / 1000 / 2
    batteryCapacityAh := config.battery.capacity / 1000
    homePosition := ⟨0, 2, 0⟩ }

/-- The mutable this.state record of PhysicsEngine, plus the engine-level
mutable accumulator this.batteryUsedAh. -/
structure State where
  position : Vec3
  velocity : Vec3
  acceleration : Vec3
  rotation : Quat
  angularVelocity : Vec3
  motorSpeeds : List ℚ
  batteryVoltage : ℚ
  batteryPercentage : ℚ
  currentDraw : ℚ
  isArmed : Bool
  timestamp : ℚ
  temperature : ℚ
  isCollided : Bool
  batteryUsedAh : ℚ
  deriving DecidableEq, Repr

/-- The state initialised by the PhysicsEngine constructor. -/
def initialState (e : Engine) : State :=
  { position := ⟨0, 2, 0⟩
    velocity := ⟨0, 0, 0⟩
    acceleration := ⟨0, 0, 0⟩
    rotation := ⟨0, 0, 0, 1⟩
    angularVelocity := ⟨0, 0, 0⟩
    motorSpeeds := List.replicate (getMotorCount e.config) 0
    batteryVoltage := e.config.battery.cells * 4.2
    batteryPercentage := 100
    currentDraw := 0
    isArmed := false
    timestamp := 0
    temperature := 20
    isCollided := false
    batteryUsedAh := 0 }

/-- The {throttle, pitch, roll, yaw} control object consumed by
PhysicsEngine.update (the flight controller's extra cameraMode field is
pure UI state and is not part of the physics input). -/
structure Controls where
  throttle : ℚ
  pitch : ℚ
  roll : ℚ
  yaw : ℚ
  deriving DecidableEq, Repr

/-- PhysicsEngine.checkCollisions.  The terrain generator is read off the
global simulator object; `terrain = none` models the early return when no
terrain generator is present, `some f` models
terrainGenerator.getTerrainHeight.  (The first "simple ground check" in the
source has an empty body and no effect.) -/
def checkCollisions (ext : ExtFns) (terrain : Option (ℚ → ℚ → ℚ)) (s : State) : State :=
  match terrain with
  | none => s
  | some getTerrainHeight =>
    let groundHeight := getTerrainHeight s.position.x s.position.z
    if s.position.y < groundHeight then
      let s1 : State := { s with position := { s.position with y := groundHeight } }
      if s1.velocity.length ext > 10 then
        { s1 with isCollided := true, isArmed := false }
      else s1
    else s

/-- The four quad-X mixing expressions of updateMotorSpeeds (motor order
0 = front-right, 1 = back-left, 2 = front-left, 3 = back-right). -/
def quadMixCommands (baseThrottle pitch roll yaw : ℚ) : List ℚ :=
  [baseThrottle - pitch + roll - yaw,
   baseThrottle + pitch - roll - yaw,
   baseThrottle - pitch - roll + yaw,
   baseThrottle + pitch + roll + yaw]

/-- PhysicsEngine.updateMotorSpeeds: throttle clamp, quad-X mixing (uniform
throttle for 6/8 motors), [0,1] clamp, then the "motor response delay"
block exactly as written (targetSpeed and currentSpeed are computed from the
same array slot). -/
def updateMotorSpeeds (e : Engine) (controls : Controls) (dt : ℚ) (s : State) : State :=
  let baseThrottle := max 0 (min 1 controls.throttle)
  let motorCount := getMotorCount e.config
  let mixed :=
    if motorCount = 4 then
      quadMixCommands baseThrottle controls.pitch controls.roll controls.yaw
    else
      List.replicate motorCount baseThrottle
  let clamped := mixed.map (fun v => max 0 (min 1 v))
  let responseRate : ℚ := 20
  let lagged := clamped.map (fun v =>
    let omegaMax := max e.maxOmega 1
    let targetSpeed := v * omegaMax
    let currentSpeed := v * omegaMax
    let delta := (targetSpeed - currentSpeed) * responseRate * dt
    (currentSpeed + delta) / omegaMax)
  { s with motorSpeeds := lagged }

/-- PhysicsEngine.calculateForces: thrust with ground effect, gravity,
angle-of-attack drag, then wind + turbulence drag (skipped entirely while
disarmed). -/
def calculateForces (ext : ExtFns) (e : Engine) (s : State) : Vec3 :=
  let totalThrust :=
    (s.motorSpeeds.map (fun sp =>
      let omega := sp * e.maxOmega
      e.thrustCoefficient * omega * omega)).sum
  let altitude := s.position.y
  let rotorDiameter := e.config.propellers.size * 0.0254
  let totalThrust :=
    if altitude < rotorDiameter then
      totalThrust * (1 + 0.1 * (1 - altitude / rotorDiameter))
    else totalThrust
  let thrustWorld := Vec3.applyQuaternion ⟨0, totalThrust, 0⟩ s.rotation
  let forces := thrustWorld
  let forces := forces.add ⟨0, -(e.totalMass * e.gravity), 0⟩
  let speed := s.velocity.length ext
  let forces :=
    if speed > 0.01 then
      let uavUp := Vec3.applyQuaternion ⟨0, 1, 0⟩ s.rotation
      let velDir := s.velocity.normalize ext
      let projection := |uavUp.dot velDir|
      let areaTop := e.config.frame.size / 1000 * (e.config.frame.size / 1000)
      let areaSide := e.frontalArea
      let effectiveArea := areaSide + (areaTop - areaSide) * projection
      let dragMagnitude :=
        0.5 * e.airDensity * e.dragCoefficient * effectiveArea * speed * speed
      forces.add ((s.velocity.normalize ext).multiplyScalar (-dragMagnitude))
    else forces
  let windSpeed := e.env.windSpeed
  let windDir := e.env.windDirection * ext.pi / 180
  let windVelocity : Vec3 := ⟨ext.sin windDir * windSpeed, 0, ext.cos windDir * windSpeed⟩
  let time := s.timestamp
  let pos := s.position
  let turbulence : Vec3 :=
    ⟨ext.noise3D (pos.x / 10) (pos.y / 10) (time * 0.5) * windSpeed * 0.3,
     ext.noise3D (pos.x / 10 + 100) (pos.y / 10) (time * 0.5) * windSpeed * 0.2,
     ext.noise3D (pos.x / 10) (pos.y / 10 + 100) (time * 0.5) * windSpeed * 0.3⟩
  let windVelocity := windVelocity.add turbulence
  if !s.isArmed then forces
  else
    let relativeVelocity := s.velocity.sub windVelocity
    let relativeSpeed := relativeVelocity.length ext
    if relativeSpeed > 0.01 then
      let windDragMagnitude :=
        0.5 * e.airDensity * e.dragCoefficient * e.frontalArea *
          relativeSpeed * relativeSpeed
      forces.add ((relativeVelocity.normalize ext).multiplyScalar (-windDragMagnitude))
    else forces

/-- PhysicsEngine.calculateTorques. -/
def calculateTorques (e : Engine) (controls : Controls) (s : State) : Vec3 :=
  let tx := controls.roll * e.armLength * e.maxThrustPerMotor * 2
  let tz := controls.pitch * e.armLength * e.maxThrustPerMotor * 2
  let ty := controls.yaw * 0.05 * e.maxThrustPerMotor
  let damping : ℚ := 0.1
  (Vec3.mk tx ty tz).sub (s.angularVelocity.multiplyScalar damping)

/-- PhysicsEngine.updateLinearMotion: a = F/m, Euler integration, then the
fixed-height ground branch at y < 0.1 with bounce (−0.3), friction (0.8),
and hard-zeroed horizontal/angular velocity when disarmed. -/
def updateLinearMotion (e : Engine) (forces : Vec3) (dt : ℚ) (s : State) : State :=
  let acceleration := forces.divideScalar e.totalMass
  let velocity := s.velocity.add (acceleration.multiplyScalar dt)
  let position := s.position.add (velocity.multiplyScalar dt)
  let s1 : State := { s with acceleration := acceleration, velocity := velocity, position := position }
  if s1.position.y < 0.1 then
    let s2 : State :=
      { s1 with
        position := { s1.position with y := 0.1 }
        velocity := ⟨s1.velocity.x * 0.8, max 0 (s1.velocity.y * (-0.3)), s1.velocity.z * 0.8⟩ }
    if !s2.isArmed then
      { s2 with
        velocity := ⟨0, s2.velocity.y, 0⟩
        angularVelocity := ⟨0, 0, 0⟩ }
    else s2
  else s1

/-- The inertia expression totalMass · armLength² that
updateAngularMotion divides by. -/
def angularInertia (e : Engine) : ℚ := e.totalMass * e.armLength * e.armLength

/-- PhysicsEngine.updateAngularMotion: α = τ/I, Euler integration of ω, then
orientation update by a small-angle XYZ-Euler quaternion and
renormalization. -/
def updateAngularMotion (ext : ExtFns) (e : Engine) (torques : Vec3) (dt : ℚ) (s : State) : State :=
  let inertia := angularInertia e
  let angularAccel := torques.divideScalar inertia
  let angularVelocity := s.angularVelocity.add (angularAccel.multiplyScalar dt)
  let deltaQuat := ext.quatFromEuler (angularVelocity.x * dt) (angularVelocity.y * dt) (angularVelocity.z * dt)
  let rotation := (s.rotation.mul deltaQuat).normalize ext
  { s with angularVelocity := angularVelocity, rotation := rotation }

/-- PhysicsEngine.updateBattery: motor current sum, capacity accumulation,
percentage floored at 0, loaded voltage, and the battery cutoff that forces
isArmed to false when percentage < 10. -/
def updateBattery (e : Engine) (dt : ℚ) (s : State) : State :=
  let totalCurrent :=
    (s.motorSpeeds.map (fun throttle =>
      (s.batteryVoltage * e.motorKv / 1000) * throttle * 0.5)).sum
  let batteryUsedAh := s.batteryUsedAh + totalCurrent * dt / 3600
  let batteryPercentage := max 0 (100 * (1 - batteryUsedAh / e.batteryCapacityAh))
  let cellCount := e.config.battery.cells
  let vFull := cellCount * 4.2
  let vEmpty := cellCount * 3.5
  let vDrop := (vFull - vEmpty) * (batteryUsedAh / e.batteryCapacityAh)
  let internalResistance := 0.02 * cellCount
  let batteryVoltage := vFull - vDrop - totalCurrent * internalResistance
  let s1 : State :=
    { s with
      currentDraw := totalCurrent
      batteryUsedAh := batteryUsedAh
      batteryPercentage := batteryPercentage
      batteryVoltage := batteryVoltage }
  if s1.batteryPercentage < 10 then { s1 with isArmed := false } else s1

/-- The body of PhysicsEngine.update past the collided early return:
temperature/motor update, collision check, force and torque computation,
linear and angular integration, battery update, timestamp advance. -/
def updateCore (ext : ExtFns) (e : Engine) (terrain : Option (ℚ → ℚ → ℚ))
    (controls : Controls) (dt : ℚ) (s : State) : State :=
  let s1 :=
    if !s.isArmed then
      { s with
        temperature := max e.env.temperature (s.temperature - dt)
        motorSpeeds := List.replicate s.motorSpeeds.length 0 }
    else
      let load := s.currentDraw / 20
      updateMotorSpeeds e controls dt
        { s with temperature := min 100 (s.temperature + load * dt) }
  let s2 := checkCollisions ext terrain s1
  let forces := calculateForces ext e s2
  let torques := if s2.isArmed then calculateTorques e controls s2 else (⟨0, 0, 0⟩ : Vec3)
  let s3 := updateLinearMotion e forces dt s2
  let s4 := updateAngularMotion ext e torques dt s3
  let s5 := updateBattery e dt s4
  { s5 with timestamp := s5.timestamp + dt }

/-- PhysicsEngine.update: the per-tick pipeline.  On an already-collided
state it forces isArmed to false, zeroes the motor commands, and returns
immediately (`updateCore` is skipped entirely). -/
def update (ext : ExtFns) (e : Engine) (terrain : Option (ℚ → ℚ → ℚ))
    (controls : Controls) (dt : ℚ) (s : State) : State :=
  if s.isCollided then
    { s with isArmed := false, motorSpeeds := List.replicate s.motorSpeeds.length 0 }
  else
    updateCore ext e terrain controls dt s

/-- PhysicsEngine.arm. -/
def armState (s : State) : State := { s with isArmed := true }

/-- PhysicsEngine.disarm. -/
def disarmState (s : State) : State :=
  { s with isArmed := false, motorSpeeds := List.replicate s.motorSpeeds.length 0 }

/-- PhysicsEngine.reset: restores pose, motion, battery, and clears the
armed/collided flags (acceleration, currentDraw, temperature, and timestamp
are not reset in the source). -/
def resetState (e : Engine) (s : State) : State :=
  { s with
    position := e.homePosition
    velocity := ⟨0, 0, 0⟩
    rotation := ⟨0, 0, 0, 1⟩
    angularVelocity := ⟨0, 0, 0⟩
    motorSpeeds := List.replicate s.motorSpeeds.length 0
    batteryUsedAh := 0
    batteryPercentage := 100
    batteryVoltage := e.config.battery.cells * 4.2
    isArmed := false
    isCollided := false }

/-- Iterated ticks with per-tick inputs: `updateSeq inputs s n` is the state
after `n` calls to PhysicsEngine.update, the k-th call receiving controls
`(inputs k).1` and timestep `(inputs k).2`. -/
def updateSeq (ext : ExtFns) (e : Engine) (terrain : Option (ℚ → ℚ → ℚ))
    (inputs : ℕ → Controls × ℚ) (s : State) : ℕ → State
  | 0 => s
  | n + 1 => update ext e terrain (inputs n).1 (inputs n).2 (updateSeq ext e terrain inputs s n)

/- ### PID controller (pid-controller.js) -/

/-- PIDController: gains, output limits, and mutable memory (integral,
previousError, previousTime).  `previousTime = none` models the null
sentinel set by the constructor and by reset(). -/
structure PIDController where
  kp : ℚ
  ki : ℚ
  kd : ℚ
  outputMin : ℚ
  outputMax : ℚ
  integral : ℚ
  previousError : ℚ
  previousTime : Option ℚ
  deriving DecidableEq, Repr

/-- PIDController constructor (memory zeroed, previousTime null). -/
def mkPID (kp ki kd outputMin outputMax : ℚ) : PIDController :=
  ⟨kp, ki, kd, outputMin, outputMax, 0, 0, none⟩

/-- PIDController.update.  `now` models performance.now(); `dtArg = none`
models the `dt = null` default argument, in which case dt is recomputed
from the timestamps.  Returns (output, updated controller).  The first call
after construction or reset only records the time and returns 0. -/
def PIDController.update (pid : PIDController) (now setpoint measured : ℚ)
    (dtArg : Option ℚ) : ℚ × PIDController :=
  match pid.previousTime with
  | none => (0, { pid with previousTime := some now })
  | some prev =>
    let dt := match dtArg with
      | none => (now - prev) / 1000
      | some d => d
    let pid1 : PIDController := { pid with previousTime := some now }
    let error := setpoint - measured
    let pTerm := pid1.kp * error
    let integral := pid1.integral + error * dt
    let iTerm := pid1.ki * integral
    let derivative := (error - pid1.previousError) / dt
    let dTerm := pid1.kd * derivative
    let output := pTerm + iTerm + dTerm
    let output := max pid1.outputMin (min pid1.outputMax output)
    let integral :=
      if output = pid1.outputMin ∨ output = pid1.outputMax then
        integral - error * dt
      else integral
    (output, { pid1 with integral := integral, previousError := error })

/-- PIDController.reset. -/
def PIDController.resetPID (pid : PIDController) : PIDController :=
  { pid with integral := 0, previousError := 0, previousTime := none }

/-- CascadedPIDController: the six PID primitives with the constructor
gains and output limits. -/
structure CascadedPIDController where
  rollPID : PIDController
  pitchPID : PIDController
  yawPID : PIDController
  altitudePID : PIDController
  positionXPID : PIDController
  positionYPID : PIDController
  deriving DecidableEq, Repr

/-- CascadedPIDController constructor. -/
def mkCascadedPID : CascadedPIDController :=
  { rollPID := mkPID 4.0 0.05 1.2 (-1) 1
    pitchPID := mkPID 4.0 0.05 1.2 (-1) 1
    yawPID := mkPID 3.0 0.01 0.5 (-1) 1
    altitudePID := mkPID 2.0 0.0 1.5 (-1) 1
    positionXPID := mkPID 0.5 0.0 0.2 (-0.5) 0.5
    positionYPID := mkPID 0.5 0.0 0.2 (-0.5) 0.5 }

/-- CascadedPIDController.updateAltitude. -/
def CascadedPIDController.updateAltitude (c : CascadedPIDController)
    (now desiredAltitude currentAltitude dt : ℚ) : ℚ × CascadedPIDController :=
  let r := c.altitudePID.update now desiredAltitude currentAltitude (some dt)
  (r.1, { c with altitudePID := r.2 })

/- ### Flight controller (applyRTH) -/

/-- The FlightController fields that the mode handlers read or write
(cameraMode and the raw input-device state are UI concerns outside the
control math). -/
structure FlightController where
  pidController : CascadedPIDController
  controls : Controls
  flightMode : String
  returnToHome : Bool
  loiterTarget : Option Vec3
  deriving DecidableEq, Repr

/-- FlightController constructor fields relevant to the mode handlers. -/
def mkFlightController : FlightController :=
  { pidController := mkCascadedPID
    controls := { throttle := 0, pitch := 0, roll := 0, yaw := 0 }
    flightMode := "stabilize"
    returnToHome := false
    loiterTarget := none }

/-- The first yaw-normalization loop of applyRTH:
`while (yawErr > Math.PI) yawErr -= 2 * Math.PI`.  It terminates for the
actual (positive) Math.PI; for a non-positive `p`, where the JavaScript
loop would never run or never terminate, the guard fails and the argument
is returned unchanged. -/
def wrapDown (p : ℚ) (e : ℚ) : ℚ :=
  if h : 0 < p ∧ p < e then wrapDown p (e - 2 * p) else e
termination_by (⌈(e - p) / (2 * p)⌉).toNat
decreasing_by
  obtain ⟨hp, hpe⟩ := h
  have h2p : (0 : ℚ) < 2 * p := by linarith
  have key : (e - 2 * p - p) / (2 * p) = (e - p) / (2 * p) - 1 := by
    field_simp
    ring
  have hpos : 0 < (e - p) / (2 * p) := div_pos (by linarith) h2p
  have hc1 : 0 < ⌈(e - p) / (2 * p)⌉ := Int.ceil_pos.mpr hpos
  have hstep : ⌈(e - 2 * p - p) / (2 * p)⌉ = ⌈(e - p) / (2 * p)⌉ - 1 := by
    rw [key]
    exact_mod_cast Int.ceil_sub_int ((e - p) / (2 * p)) 1
  simp only [hstep]
  omega

/-- The second yaw-normalization loop of applyRTH:
`while (yawErr < -Math.PI) yawErr += 2 * Math.PI`. -/
def wrapUp (p : ℚ) (e : ℚ) : ℚ :=
  if h : 0 < p ∧ e < -p then wrapUp p (e + 2 * p) else e
termination_by (⌈(-p - e) / (2 * p)⌉).toNat
decreasing_by
  obtain ⟨hp, hpe⟩ := h
  have h2p : (0 : ℚ) < 2 * p := by linarith
  have key : (-p - (e + 2 * p)) / (2 * p) = (-p - e) / (2 * p) - 1 := by
    field_simp
    ring
  have hpos : 0 < (-p - e) / (2 * p) := div_pos (by linarith) h2p
  have hc1 : 0 < ⌈(-p - e) / (2 * p)⌉ := Int.ceil_pos.mpr hpos
  have hstep : ⌈(-p - (e + 2 * p)) / (2 * p)⌉ = ⌈(-p - e) / (2 * p)⌉ - 1 := by
    rw [key]
    exact_mod_cast Int.ceil_sub_int ((-p - e) / (2 * p)) 1
  simp only [hstep]
  omega

/-- FlightController.applyRTH.  `home` is the global simulator's
physics.homePosition as read at the top of the method (the (0,0,0)
fallback when the global is absent is covered by instantiating `home`);
`phys` is the physicsState argument; `now` models performance.now()
inside the nested PID update. -/
def applyRTH (ext : ExtFns) (home : Vec3) (fc : FlightController)
    (phys : State) (dt now : ℚ) : FlightController :=
  let current := phys.position
  let desiredAlt := max 5 (home.y + 2)
  let r := fc.pidController.updateAltitude now desiredAlt current.y dt
  let altCorr := r.1
  let fc1 : FlightController :=
    { fc with
      pidController := r.2
      controls := { fc.controls with
        throttle := max 0 (min 1 (fc.controls.throttle + altCorr * 0.3)) } }
  let current2 : Vec3 := ⟨current.x, 0, current.z⟩
  let home2 : Vec3 := ⟨home.x, 0, home.z⟩
  let dir := home2.sub current2
  let distance := dir.length ext
  let dir := if distance > 0.01 then dir.normalize ext else dir
  let desiredYaw := ext.atan2 dir.x dir.z
  let euler := ext.eulerFromQuat phys.rotation
  let yawNow := euler.y
  let yawErr := desiredYaw - yawNow
  let yawErr := wrapUp ext.pi (wrapDown ext.pi yawErr)
  let fc2 : FlightController :=
    { fc1 with controls := { fc1.controls with
        yaw := max (-1) (min 1 (yawErr / (ext.pi / 2))) } }
  let forward := max 0.1 (min 0.5 (distance * 0.1))
  let fc3 : FlightController :=
    { fc2 with controls := { fc2.controls with pitch := forward } }
  if distance < 0.5 then
    let fc4 : FlightController :=
      { fc3 with controls := { fc3.controls with
          pitch := 0
          throttle := max 0 (fc3.controls.throttle - 0.01) } }
    if phys.position.y < 0.2 then
      { fc4 with returnToHome := false, flightMode := "stabilize" }
    else fc4
  else fc3

/- ### Concrete fixtures used by witnesses and counterexamples -/

/-- Concrete stand-in for the host square root, exact on every perfect
square that occurs in the concrete runs below. -/
def testSqrt (q : ℚ) : ℚ :=
  if q = 0 then 0
  else if q = 1 then 1
  else if q = 144 then 12
  else if q = 25 then 5
  else 0

/-- Concrete instantiation of the external primitives for witness runs. -/
def testExt : ExtFns :=
  { sqrt := testSqrt
    sin := fun _ => 0
    cos := fun _ => 1
    atan2 := fun _ _ => 0
    pi := 157 / 50
    noise3D := fun _ _ _ => 0
    quatFromEuler := fun _ _ _ => ⟨0, 0, 0, 1⟩
    eulerFromQuat := fun _ => ⟨0, 0, 0⟩ }

/-- A representative quad-X configuration (450 mm carbon frame, 10×4.5
2-blade propellers, 1000 kv motors, 4S 2200 mAh battery, no payload). -/
def testConfig : UAVConfig :=
  { frame := { type := .quadX, size := 450, material := .carbon }
    propellers := { size := 10, pitch := 4.5, blades := 2 }
    motors := { kv := 1000 }
    battery := { cells := 4, capacity := 2200 }
    payload := { type := .nonePayload } }

/-- The same build on a hexa frame. -/
def hexaConfig : UAVConfig :=
  { testConfig with frame := { type := .hexa, size := 550, material := .carbon } }

/-- A degenerate configuration with frame size 0 (arm length 0). -/
def zeroSizeConfig : UAVConfig :=
  { testConfig with frame := { type := .quadX, size := 0, material := .carbon } }

/-- Calm 15 °C environment (air density exactly 1.225). -/
def testEnv : EnvConfig := { temperature := 15, windSpeed := 0, windDirection := 0 }

def testEngine : Engine := mkEngine testExt testConfig testEnv

/- ### Field-preservation facts about the tick sub-steps -/

lemma updateMotorSpeeds_position (e : Engine) (c : Controls) (dt : ℚ) (s : State) :
    (updateMotorSpeeds e c dt s).position = s.position := rfl

lemma updateMotorSpeeds_velocity (e : Engine) (c : Controls) (dt : ℚ) (s : State) :
    (updateMotorSpeeds e c dt s).velocity = s.velocity := rfl

lemma updateMotorSpeeds_isArmed (e : Engine) (c : Controls) (dt : ℚ) (s : State) :
    (updateMotorSpeeds e c dt s).isArmed = s.isArmed := rfl

lemma updateMotorSpeeds_isCollided (e : Engine) (c : Controls) (dt : ℚ) (s : State) :
    (updateMotorSpeeds e c dt s).isCollided = s.isCollided := rfl

lemma checkCollisions_velocity (ext : ExtFns) (t : Option (ℚ → ℚ → ℚ)) (s : State) :
    (checkCollisions ext t s).velocity = s.velocity := by
  cases t with
  | none => rfl
  | some f =>
    simp only [checkCollisions]
    split
    · split <;> rfl
    · rfl

lemma checkCollisions_motorSpeeds (ext : ExtFns) (t : Option (ℚ → ℚ → ℚ)) (s : State) :
    (checkCollisions ext t s).motorSpeeds = s.motorSpeeds := by
  cases t with
  | none => rfl
  | some f =>
    simp only [checkCollisions]
    split
    · split <;> rfl
    · rfl

lemma checkCollisions_isArmed_of_false (ext : ExtFns) (t : Option (ℚ → ℚ → ℚ)) (s : State)
    (h : s.isArmed = false) : (checkCollisions ext t s).isArmed = false := by
  cases t with
  | none => exact h
  | some f =>
    simp only [checkCollisions]
    split
    · split
      · rfl
      · exact h
    · exact h

lemma updateLinearMotion_isArmed (e : Engine) (f : Vec3) (dt : ℚ) (s : State) :
    (updateLinearMotion e f dt s).isArmed = s.isArmed := by
  simp only [updateLinearMotion]
  split
  · split <;> rfl
  · rfl

lemma updateLinearMotion_isCollided (e : Engine) (f : Vec3) (dt : ℚ) (s : State) :
    (updateLinearMotion e f dt s).isCollided = s.isCollided := by
  simp only [updateLinearMotion]
  split
  · split <;> rfl
  · rfl

lemma updateLinearMotion_motorSpeeds (e : Engine) (f : Vec3) (dt : ℚ) (s : State) :
    (updateLinearMotion e f dt s).motorSpeeds = s.motorSpeeds := by
  simp only [updateLinearMotion]
  split
  · split <;> rfl
  · rfl

lemma updateAngularMotion_isArmed (ext : ExtFns) (e : Engine) (τ : Vec3) (dt : ℚ) (s : State) :
    (updateAngularMotion ext e τ dt s).isArmed = s.isArmed := rfl

lemma updateAngularMotion_isCollided (ext : ExtFns) (e : Engine) (τ : Vec3) (dt : ℚ) (s : State) :
    (updateAngularMotion ext e τ dt s).isCollided = s.isCollided := rfl

lemma updateAngularMotion_motorSpeeds (ext : ExtFns) (e : Engine) (τ : Vec3) (dt : ℚ) (s : State) :
    (updateAngularMotion ext e τ dt s).motorSpeeds = s.motorSpeeds := rfl

lemma updateBattery_isCollided (e : Engine) (dt : ℚ) (s : State) :
    (updateBattery e dt s).isCollided = s.isCollided := by
  simp only [updateBattery]
  split <;> rfl

lemma updateBattery_motorSpeeds (e : Engine) (dt : ℚ) (s : State) :
    (updateBattery e dt s).motorSpeeds = s.motorSpeeds := by
  simp only [updateBattery]
  split <;> rfl

lemma updateBattery_isArmed_of_false (e : Engine) (dt : ℚ) (s : State)
    (h : s.isArmed = false) : (updateBattery e dt s).isArmed = false := by
  simp only [updateBattery]
  split
  · rfl
  · exact h

lemma updateBattery_disarm_of_low (e : Engine) (dt : ℚ) (s : State)
    (h : (updateBattery e dt s).batteryPercentage < 10) :
    (updateBattery e dt s).isArmed = false := by
  simp only [updateBattery] at h ⊢
  split
  · rfl
  · rename_i hnot
    rw [if_neg hnot] at h
    exact absurd h hnot

/-- On an already-collided state, update is exactly the short-circuit. -/
lemma update_collided (ext : ExtFns) (e : Engine) (t : Option (ℚ → ℚ → ℚ))
    (c : Controls) (dt : ℚ) (s : State) (h : s.isCollided = true) :
    update ext e t c dt s =
      { s with isArmed := false, motorSpeeds := List.replicate s.motorSpeeds.length 0 } := by
  simp [update, h]

/-- Iterating update from a collided state stays at the short-circuited
state forever. -/
lemma updateSeq_collided (ext : ExtFns) (e : Engine) (t : Option (ℚ → ℚ → ℚ))
    (inputs : ℕ → Controls × ℚ) (s : State) (h : s.isCollided = true) :
    ∀ n : ℕ, 1 ≤ n →
      updateSeq ext e t inputs s n =
        { s with isArmed := false, motorSpeeds := List.replicate s.motorSpeeds.length 0 } := by
  intro n hn
  induction n with
  | zero => omega
  | succ m ih =>
    rcases Nat.eq_zero_or_pos m with h0 | hm
    · subst h0
      simp only [updateSeq]
      exact update_collided ext e t _ _ s h
    · have hKm := ih hm
      simp only [updateSeq, hKm]
      rw [update_collided ext e t (inputs m).1 (inputs m).2
        { s with isArmed := false, motorSpeeds := List.replicate s.motorSpeeds.length 0 } h]
      simp [List.length_replicate]

/-- C1: on a state with collided = true, every subsequent tick (any control
input, any dt, any number of ticks) returns armed = false with all motor
speeds zeroed, and leaves position, velocity, orientation, angular
velocity, battery charge/percentage/voltage, and timestamp unchanged
(the force/torque pipeline is skipped); the state stays collided until
reset(), which clears the flag. -/
theorem C1_collided_short_circuit (ext : ExtFns) (e : Engine)
    (terrain : Option (ℚ → ℚ → ℚ)) (inputs : ℕ → Controls × ℚ) (s : State)
    (h : s.isCollided = true) (n : ℕ) (hn : 1 ≤ n) :
    (updateSeq ext e terrain inputs s n).isArmed = false ∧
    (updateSeq ext e terrain inputs s n).motorSpeeds = List.replicate s.motorSpeeds.length 0 ∧
    (updateSeq ext e terrain inputs s n).position = s.position ∧
    (updateSeq ext e terrain inputs s n).velocity = s.velocity ∧
    (updateSeq ext e terrain inputs s n).rotation = s.rotation ∧
    (updateSeq ext e terrain inputs s n).angularVelocity = s.angularVelocity ∧
    (updateSeq ext e terrain inputs s n).batteryUsedAh = s.batteryUsedAh ∧
    (updateSeq ext e terrain inputs s n).batteryPercentage = s.batteryPercentage ∧
    (updateSeq ext e terrain inputs s n).batteryVoltage = s.batteryVoltage ∧
    (updateSeq ext e terrain inputs s n).timestamp = s.timestamp ∧
    (updateSeq ext e terrain inputs s n).isCollided = true ∧
    (resetState e (updateSeq ext e terrain inputs s n)).isCollided = false := by
  rw [updateSeq_collided ext e terrain inputs s h n hn]
  exact ⟨rfl, rfl, rfl, rfl, rfl, rfl, rfl, rfl, rfl, rfl, h, rfl⟩

def testControls : Controls := { throttle := 0.7, pitch := 0.1, roll := 0, yaw := 0 }

def flatTerrain : Option (ℚ → ℚ → ℚ) := some fun _ _ => 0

def testInputs : ℕ → Controls × ℚ := fun _ => (testControls, 1 / 120)

/-- A concrete collided state (armed flag still set, some motors spinning). -/
def collidedState : State :=
  { initialState testEngine with
    isCollided := true
    isArmed := true
    motorSpeeds := [0.2, 0, 0, 0.4] }

/-- Witness for C1: the concrete collided state, two ticks later, is
disarmed with zeroed motors and an unchanged pose and battery. -/
theorem C1_collided_short_circuit_witness :
    collidedState.isCollided = true ∧ (1 : ℕ) ≤ 2 ∧
    (updateSeq testExt testEngine flatTerrain testInputs collidedState 2).isArmed = false ∧
    (updateSeq testExt testEngine flatTerrain testInputs collidedState 2).motorSpeeds =
      List.replicate collidedState.motorSpeeds.length 0 ∧
    (updateSeq testExt testEngine flatTerrain testInputs collidedState 2).position =
      collidedState.position ∧
    (updateSeq testExt testEngine flatTerrain testInputs collidedState 2).isCollided = true := by
  have h := C1_collided_short_circuit testExt testEngine flatTerrain testInputs
    collidedState rfl 2 (by norm_num)
  exact ⟨rfl, by norm_num, h.1, h.2.1, h.2.2.1, h.2.2.2.2.2.2.2.2.2.2.1⟩

/- ### C5: PID anti-windup -/

/-- C5: after the first call (previousTime non-null), whenever the clamped
output of PIDController.update equals outputMin or outputMax, the integral
accumulator at the end of the call equals its value at the start (the
step's error·dt accumulation is subtracted back out), so the integral term
does not grow across saturated steps. -/
theorem C5_pid_antiwindup (pid : PIDController) (now setpoint measured : ℚ)
    (dtArg : Option ℚ) (t0 : ℚ) (hprev : pid.previousTime = some t0)
    (hclamp : (pid.update now setpoint measured dtArg).1 = pid.outputMin ∨
              (pid.update now setpoint measured dtArg).1 = pid.outputMax) :
    (pid.update now setpoint measured dtArg).2.integral = pid.integral := by
  cases dtArg with
  | none =>
    simp only [PIDController.update, hprev] at hclamp ⊢
    rw [if_pos hclamp]
    ring
  | some d =>
    simp only [PIDController.update, hprev] at hclamp ⊢
    rw [if_pos hclamp]
    ring

/-- A PID state one step past the first call, used to saturate the output. -/
def satPID : PIDController :=
  { kp := 1, ki := 1, kd := 0, outputMin := -1, outputMax := 1
    integral := 0, previousError := 0, previousTime := some 0 }

/-- Witness for C5: with error 10 and dt 1 the raw output 20 clamps to
outputMax = 1, and the integral is left at its prior value 0. -/
theorem C5_pid_antiwindup_witness :
    satPID.previousTime = some 0 ∧
    (satPID.update 1 10 0 (some 1)).1 = satPID.outputMax ∧
    (satPID.update 1 10 0 (some 1)).2.integral = satPID.integral :=
  ⟨rfl, by norm_num [PIDController.update, satPID],
   C5_pid_antiwindup satPID 1 10 0 (some 1) 0 rfl
     (Or.inr (by norm_num [PIDController.update, satPID]))⟩

/- ### Motor mixing: the response-delay block is a no-op -/

/-- max 0 (min 1 ·) is idempotent. -/
lemma clamp01_clamp01 (t : ℚ) :
    max 0 (min 1 (max 0 (min 1 t))) = max 0 (min 1 t) := by
  rcases le_total t 0 with h | h
  · rw [min_eq_right (by linarith : t ≤ 1), max_eq_left (by linarith : t ≤ 0)]
    norm_num
  · rcases le_total t 1 with h1 | h1
    · rw [min_eq_right h1, max_eq_right h, min_eq_right h1, max_eq_right h]
    · rw [min_eq_left h1, max_eq_right (by norm_num : (0:ℚ) ≤ 1)]
      norm_num

/-- The stored motor speeds after updateMotorSpeeds are exactly the clamped
mixed commands: the response-delay block computes targetSpeed and
currentSpeed from the same slot, so delta = 0 and (v·ω + 0)/ω = v. -/
lemma updateMotorSpeeds_eq_clamped (e : Engine) (c : Controls) (dt : ℚ) (s : State) :
    (updateMotorSpeeds e c dt s).motorSpeeds =
      (if getMotorCount e.config = 4 then
          quadMixCommands (max 0 (min 1 c.throttle)) c.pitch c.roll c.yaw
        else
          List.replicate (getMotorCount e.config) (max 0 (min 1 c.throttle))).map
        (fun v => max 0 (min 1 v)) := by
  simp only [updateMotorSpeeds]
  have hω : (max e.maxOmega 1 : ℚ) ≠ 0 := by
    have : (1 : ℚ) ≤ max e.maxOmega 1 := le_max_right _ _
    linarith
  have hfun : ∀ v : ℚ,
      (v * max e.maxOmega 1 +
        (v * max e.maxOmega 1 - v * max e.maxOmega 1) * 20 * dt) / max e.maxOmega 1 = v := by
    intro v
    rw [sub_self, zero_mul, zero_mul, add_zero, mul_div_cancel_right₀ _ hω]
  rw [List.map_map]
  exact List.map_congr_left fun v _ => hfun _

/-- C6 (observed code defect): the "motor response delay" block in
updateMotorSpeeds is a no-op.  For every configuration, prior motor state,
control input and dt, the stored motor speed equals the clamped mixed
command exactly — never a value strictly between the prior speed and the
command.  Concretely, commanding full throttle from rest with dt = 1/1000
stores speed 1 on all four motors immediately. -/
theorem C6_motor_lag_noop :
    (∀ (e : Engine) (c : Controls) (dt : ℚ) (s : State),
      (updateMotorSpeeds e c dt s).motorSpeeds =
        (if getMotorCount e.config = 4 then
            quadMixCommands (max 0 (min 1 c.throttle)) c.pitch c.roll c.yaw
          else
            List.replicate (getMotorCount e.config) (max 0 (min 1 c.throttle))).map
          (fun v => max 0 (min 1 v))) ∧
    (updateMotorSpeeds testEngine { throttle := 1, pitch := 0, roll := 0, yaw := 0 }
        (1 / 1000) { initialState testEngine with isArmed := true }).motorSpeeds =
      [1, 1, 1, 1] := by
  refine ⟨fun e c dt s => updateMotorSpeeds_eq_clamped e c dt s, ?_⟩
  rw [updateMotorSpeeds_eq_clamped]
  norm_num [testEngine, mkEngine, testConfig, getMotorCount, quadMixCommands]

/-- C7: for a 4-motor frame each stored motor speed is the [0,1]-clamp of
throttle ± pitch ± roll ± yaw with a distinct sign pattern per motor
(order FR, BL, FL, BR); for 6/8 motors every stored speed is the clamped
throttle alone; in all cases each stored speed lies in [0,1]. -/
theorem C7_motor_mixing (e : Engine) (c : Controls) (dt : ℚ) (s : State) :
    (getMotorCount e.config = 4 →
      (updateMotorSpeeds e c dt s).motorSpeeds =
        [max 0 (min 1 (max 0 (min 1 c.throttle) - c.pitch + c.roll - c.yaw)),
         max 0 (min 1 (max 0 (min 1 c.throttle) + c.pitch - c.roll - c.yaw)),
         max 0 (min 1 (max 0 (min 1 c.throttle) - c.pitch - c.roll + c.yaw)),
         max 0 (min 1 (max 0 (min 1 c.throttle) + c.pitch + c.roll + c.yaw))]) ∧
    (getMotorCount e.config = 6 ∨ getMotorCount e.config = 8 →
      (updateMotorSpeeds e c dt s).motorSpeeds =
        List.replicate (getMotorCount e.config) (max 0 (min 1 c.throttle))) ∧
    (∀ v ∈ (updateMotorSpeeds e c dt s).motorSpeeds, 0 ≤ v ∧ v ≤ 1) := by
  refine ⟨?_, ?_, ?_⟩
  · intro h4
    rw [updateMotorSpeeds_eq_clamped, if_pos h4]
    rfl
  · intro h68
    have hne : getMotorCount e.config ≠ 4 := by rcases h68 with h | h <;> omega
    rw [updateMotorSpeeds_eq_clamped, if_neg hne, List.map_replicate, clamp01_clamp01]
  · intro v hv
    rw [updateMotorSpeeds_eq_clamped] at hv
    obtain ⟨w, _, hw⟩ := List.mem_map.mp hv
    constructor
    · rw [← hw]; exact le_max_left _ _
    · rw [← hw]
      exact max_le (by norm_num) (min_le_left _ _)

def hexaEngine : Engine := mkEngine testExt hexaConfig testEnv

/-- Witness for C7 at concrete inputs: the quad engine mixes
throttle 0.7, pitch 0.1 into [0.6, 0.8, 0.6, 0.8]; the hexa engine gives
all six motors the clamped throttle 0.7. -/
theorem C7_motor_mixing_witness :
    getMotorCount testEngine.config = 4 ∧
    (updateMotorSpeeds testEngine testControls (1 / 120)
      (initialState testEngine)).motorSpeeds = [3/5, 4/5, 3/5, 4/5] ∧
    getMotorCount hexaEngine.config = 6 ∧
    (updateMotorSpeeds hexaEngine testControls (1 / 120)
      (initialState hexaEngine)).motorSpeeds = List.replicate 6 (7/10) := by
  have hq := (C7_motor_mixing testEngine testControls (1 / 120) (initialState testEngine)).1 rfl
  have hh := (C7_motor_mixing hexaEngine testControls (1 / 120) (initialState hexaEngine)).2.1
    (Or.inl rfl)
  refine ⟨rfl, ?_, rfl, ?_⟩
  · rw [hq]; norm_num [testControls]
  · rw [hh]
    norm_num [hexaEngine, mkEngine, hexaConfig, getMotorCount, testControls]

/- ### C10: pre-clamp mixing commands sum to 4 × throttle -/

/-- C10: for an in-range ControlVector throttle (throttle ∈ [0,1], the
canonical range), the four pre-clamp quad-X mixing commands sum to exactly
4 × throttle: the pitch, roll, and yaw contributions cancel pairwise. -/
theorem C10_mix_sum (c : Controls) (h0 : 0 ≤ c.throttle) (h1 : c.throttle ≤ 1) :
    (quadMixCommands (max 0 (min 1 c.throttle)) c.pitch c.roll c.yaw).sum =
      4 * c.throttle := by
  have hb : max 0 (min 1 c.throttle) = c.throttle := by
    rw [min_eq_right h1, max_eq_right h0]
  simp only [quadMixCommands, hb, List.sum_cons, List.sum_nil]
  ring

/-- Witness for C10 at throttle 0.7, pitch 0.1, roll 0.2, yaw −0.1. -/
theorem C10_mix_sum_witness :
    (0 : ℚ) ≤ 7/10 ∧ (7/10 : ℚ) ≤ 1 ∧
    (quadMixCommands (max 0 (min 1 (7/10))) (1/10) (1/5) (-(1/10))).sum = 4 * (7/10) :=
  ⟨by norm_num, by norm_num,
   C10_mix_sum { throttle := 7/10, pitch := 1/10, roll := 1/5, yaw := -(1/10) }
     (by norm_num) (by norm_num)⟩

/- ### C8: no minimum floor guards the mass / inertia divisions -/

/-- C8 (observed code defect): no minimum floor exists.  With frame size 0
the derived arm length is 0, so the inertia totalMass·armLength² that
updateAngularMotion divides torque by is exactly 0 (JavaScript would
produce non-finite angular acceleration); the total mass stays positive
only because of the fixed additive component masses, not a guard. -/
theorem C8_no_division_guard :
    (mkEngine testExt zeroSizeConfig testEnv).armLength = 0 ∧
    angularInertia (mkEngine testExt zeroSizeConfig testEnv) = 0 ∧
    (mkEngine testExt zeroSizeConfig testEnv).totalMass = 3/5 := by
  refine ⟨?_, ?_, ?_⟩
  · norm_num [mkEngine, zeroSizeConfig, testConfig]
  · norm_num [angularInertia, mkEngine, zeroSizeConfig, testConfig]
  · norm_num [mkEngine, zeroSizeConfig, testConfig, calculateTotalMass,
      getMotorCount, getPayloadMass, payloadMassTable, frameMaterialMultiplier]

/- ### C4: battery cutoff forces disarm on the next tick -/

lemma checkCollisions_batteryVoltage (ext : ExtFns) (t : Option (ℚ → ℚ → ℚ)) (s : State) :
    (checkCollisions ext t s).batteryVoltage = s.batteryVoltage := by
  cases t with
  | none => rfl
  | some f =>
    simp only [checkCollisions]
    split
    · split <;> rfl
    · rfl

lemma checkCollisions_batteryUsedAh (ext : ExtFns) (t : Option (ℚ → ℚ → ℚ)) (s : State) :
    (checkCollisions ext t s).batteryUsedAh = s.batteryUsedAh := by
  cases t with
  | none => rfl
  | some f =>
    simp only [checkCollisions]
    split
    · split <;> rfl
    · rfl

lemma updateLinearMotion_batteryVoltage (e : Engine) (f : Vec3) (dt : ℚ) (s : State) :
    (updateLinearMotion e f dt s).batteryVoltage = s.batteryVoltage := by
  simp only [updateLinearMotion]
  split
  · split <;> rfl
  · rfl

lemma updateLinearMotion_batteryUsedAh (e : Engine) (f : Vec3) (dt : ℚ) (s : State) :
    (updateLinearMotion e f dt s).batteryUsedAh = s.batteryUsedAh := by
  simp only [updateLinearMotion]
  split
  · split <;> rfl
  · rfl

lemma updateBattery_percentage_nonneg (e : Engine) (dt : ℚ) (s : State) :
    0 ≤ (updateBattery e dt s).batteryPercentage := by
  simp only [updateBattery]
  split <;> exact le_max_left _ _

lemma updateCore_isArmed_of_false (ext : ExtFns) (e : Engine) (t : Option (ℚ → ℚ → ℚ))
    (c : Controls) (dt : ℚ) (s : State) (h : s.isArmed = false) :
    (updateCore ext e t c dt s).isArmed = false := by
  simp only [updateCore, h, Bool.not_false, if_true]
  show (updateBattery _ _ _).isArmed = false
  apply updateBattery_isArmed_of_false
  rw [updateAngularMotion_isArmed, updateLinearMotion_isArmed]
  apply checkCollisions_isArmed_of_false
  rfl

lemma updateCore_disarm_of_low (ext : ExtFns) (e : Engine) (t : Option (ℚ → ℚ → ℚ))
    (c : Controls) (dt : ℚ) (s : State)
    (h : (updateCore ext e t c dt s).batteryPercentage < 10) :
    (updateCore ext e t c dt s).isArmed = false := by
  simp only [updateCore] at h ⊢
  exact updateBattery_disarm_of_low _ _ _ h

lemma update_isArmed_of_false (ext : ExtFns) (e : Engine) (t : Option (ℚ → ℚ → ℚ))
    (c : Controls) (dt : ℚ) (s : State) (h : s.isArmed = false) :
    (update ext e t c dt s).isArmed = false := by
  simp only [update]
  split
  · rfl
  · exact updateCore_isArmed_of_false ext e t c dt s h

lemma update_disarm_of_low (ext : ExtFns) (e : Engine) (t : Option (ℚ → ℚ → ℚ))
    (c : Controls) (dt : ℚ) (s : State)
    (h : (update ext e t c dt s).batteryPercentage < 10) :
    (update ext e t c dt s).isArmed = false := by
  by_cases hc : s.isCollided = true
  · simp [update, hc]
  · simp only [update, hc, if_false] at h ⊢
    exact updateCore_disarm_of_low ext e t c dt s h

lemma update_percentage_nonneg (ext : ExtFns) (e : Engine) (t : Option (ℚ → ℚ → ℚ))
    (c : Controls) (dt : ℚ) (s : State) (h : 0 ≤ s.batteryPercentage) :
    0 ≤ (update ext e t c dt s).batteryPercentage := by
  simp only [update]
  split
  · exact h
  · show 0 ≤ (updateCore _ _ _ _ _ _).batteryPercentage
    simp only [updateCore]
    exact updateBattery_percentage_nonneg _ _ _

/-- C4: (i) if the battery percentage computed by a tick is below 10, the
armed flag is false by the end of the next update call, with any further
inputs; (ii) the forced disarm in updateBattery changes no state field
other than the battery quantities it recomputes and isArmed itself —
position, velocity, rotation, angular velocity, motor speeds, timestamp,
temperature and the collided flag are untouched; (iii) the percentage is
never negative. -/
theorem C4_battery_cutoff (ext : ExtFns) (e : Engine) (t : Option (ℚ → ℚ → ℚ))
    (c c2 : Controls) (dt dt2 : ℚ) (s s2 : State) :
    ((update ext e t c dt s).batteryPercentage < 10 →
      (update ext e t c2 dt2 (update ext e t c dt s)).isArmed = false) ∧
    ((updateBattery e dt s2).position = s2.position ∧
     (updateBattery e dt s2).velocity = s2.velocity ∧
     (updateBattery e dt s2).rotation = s2.rotation ∧
     (updateBattery e dt s2).angularVelocity = s2.angularVelocity ∧
     (updateBattery e dt s2).motorSpeeds = s2.motorSpeeds ∧
     (updateBattery e dt s2).timestamp = s2.timestamp ∧
     (updateBattery e dt s2).temperature = s2.temperature ∧
     (updateBattery e dt s2).isCollided = s2.isCollided) ∧
    (0 ≤ s.batteryPercentage → 0 ≤ (update ext e t c dt s).batteryPercentage) := by
  refine ⟨?_, ⟨?_, ?_, ?_, ?_, ?_, ?_, ?_, ?_⟩, ?_⟩
  · intro h
    exact update_isArmed_of_false _ _ _ _ _ _ (update_disarm_of_low _ _ _ _ _ _ h)
  · simp only [updateBattery]; split <;> rfl
  · simp only [updateBattery]; split <;> rfl
  · simp only [updateBattery]; split <;> rfl
  · simp only [updateBattery]; split <;> rfl
  · simp only [updateBattery]; split <;> rfl
  · simp only [updateBattery]; split <;> rfl
  · simp only [updateBattery]; split <;> rfl
  · simp only [updateBattery]; split <;> rfl
  · exact update_percentage_nonneg _ _ _ _ _ _

/-- A nearly drained battery: 2.1 Ah of the 2.2 Ah capacity used. -/
def drainedState : State := { initialState testEngine with batteryUsedAh := 2.1 }

/-- Witness for C4: one tick on the drained state computes percentage
50/11 < 10, and the tick after it reports armed = false. -/
theorem C4_battery_cutoff_witness :
    (update testExt testEngine none testControls (1/120) drainedState).batteryPercentage < 10 ∧
    (update testExt testEngine none testControls (1/120)
      (update testExt testEngine none testControls (1/120) drainedState)).isArmed = false := by
  have h : (update testExt testEngine none testControls (1/120)
      drainedState).batteryPercentage < 10 := by
    norm_num [update, updateCore, drainedState, initialState, updateMotorSpeeds,
      checkCollisions, updateLinearMotion, updateAngularMotion, updateBattery,
      calculateForces, calculateTorques, angularInertia, mkEngine, testEngine,
      testConfig, testEnv, testExt, testSqrt, getMotorCount, calculateTotalMass,
      getPayloadMass, payloadMassTable, frameMaterialMultiplier, calculateAirDensity,
      testControls, Vec3.add, Vec3.sub, Vec3.multiplyScalar, Vec3.divideScalar,
      Vec3.length, Vec3.lengthSq, Vec3.normalize, Vec3.applyQuaternion, Vec3.dot,
      Quat.mul, Quat.normalize, List.replicate, quadMixCommands]
  exact ⟨h, (C4_battery_cutoff testExt testEngine none testControls testControls
    (1/120) (1/120) drainedState drainedState).1 h⟩

/- ### C2: terrain crash detection -/

/-- checkCollisions on a state below terrain with speed above the crash
threshold: position.y is clamped to the terrain height and the state is
marked collided and disarmed (velocity and motor speeds untouched). -/
lemma checkCollisions_crash (ext : ExtFns) (f : ℚ → ℚ → ℚ) (s : State)
    (hpos : s.position.y < f s.position.x s.position.z)
    (hspd : 10 < ext.sqrt s.velocity.lengthSq) :
    checkCollisions ext (some f) s =
      { s with
        position := { s.position with y := f s.position.x s.position.z }
        isCollided := true
        isArmed := false } := by
  simp only [checkCollisions]
  split
  · split
    · rfl
    · rename_i hv
      exact absurd hspd (by simpa [Vec3.length] using hv)
  · rename_i hp
    exact absurd hpos hp

/-- The motor speeds at the end of a non-collided tick: zeroed when
disarmed, otherwise the updateMotorSpeeds output (which does not depend on
the prior state). -/
lemma updateCore_motorSpeeds (ext : ExtFns) (e : Engine) (t : Option (ℚ → ℚ → ℚ))
    (c : Controls) (dt : ℚ) (s : State) :
    (updateCore ext e t c dt s).motorSpeeds =
      if s.isArmed then (updateMotorSpeeds e c dt s).motorSpeeds
      else List.replicate s.motorSpeeds.length 0 := by
  simp only [updateCore]
  show (updateBattery _ _ _).motorSpeeds = _
  rw [updateBattery_motorSpeeds, updateAngularMotion_motorSpeeds,
    updateLinearMotion_motorSpeeds, checkCollisions_motorSpeeds]
  cases ha : s.isArmed
  · rfl
  · rfl

/-- The crash flags survive the rest of the tick pipeline, whatever forces,
torques and final timestamp the tick computes. -/
lemma crash_chain (ext : ExtFns) (e : Engine) (f : ℚ → ℚ → ℚ) (dt t5 : ℚ)
    (F τ : Vec3) (s1 : State)
    (hpos1 : s1.position.y < f s1.position.x s1.position.z)
    (hspd1 : 10 < ext.sqrt s1.velocity.lengthSq) :
    ({ updateBattery e dt (updateAngularMotion ext e τ dt (updateLinearMotion e F dt
        (checkCollisions ext (some f) s1))) with timestamp := t5 } : State).isCollided = true ∧
    ({ updateBattery e dt (updateAngularMotion ext e τ dt (updateLinearMotion e F dt
        (checkCollisions ext (some f) s1))) with timestamp := t5 } : State).isArmed = false := by
  rw [checkCollisions_crash ext f s1 hpos1 hspd1]
  constructor
  · show (updateBattery _ _ _).isCollided = true
    rw [updateBattery_isCollided, updateAngularMotion_isCollided,
      updateLinearMotion_isCollided]
  · show (updateBattery _ _ _).isArmed = false
    apply updateBattery_isArmed_of_false
    rw [updateAngularMotion_isArmed, updateLinearMotion_isArmed]

/-- A tick that starts below terrain with speed above the crash threshold
ends collided and disarmed. -/
lemma updateCore_crash (ext : ExtFns) (e : Engine) (f : ℚ → ℚ → ℚ)
    (c : Controls) (dt : ℚ) (s : State)
    (hpos : s.position.y < f s.position.x s.position.z)
    (hspd : 10 < ext.sqrt s.velocity.lengthSq) :
    (updateCore ext e (some f) c dt s).isCollided = true ∧
    (updateCore ext e (some f) c dt s).isArmed = false := by
  simp only [updateCore]
  apply crash_chain
  · split <;> exact hpos
  · split <;> exact hspd

/-- C2 (amended): if at the start of a tick (the point where checkCollisions
runs, before integration) the position is below the terrain height and the
speed exceeds the crash threshold 10, then that tick ends with
collided = true and armed = false; the motor speeds are forced to zero by
the collided short-circuit of the NEXT tick, not within the same tick. -/
theorem C2_crash_next_tick_zeroing (ext : ExtFns) (e : Engine) (f : ℚ → ℚ → ℚ)
    (c c2 : Controls) (dt dt2 : ℚ) (s : State)
    (hcol : s.isCollided = false)
    (hpos : s.position.y < f s.position.x s.position.z)
    (hspd : 10 < ext.sqrt s.velocity.lengthSq) :
    (update ext e (some f) c dt s).isCollided = true ∧
    (update ext e (some f) c dt s).isArmed = false ∧
    (update ext e (some f) c2 dt2 (update ext e (some f) c dt s)).motorSpeeds =
      List.replicate (update ext e (some f) c dt s).motorSpeeds.length 0 ∧
    (update ext e (some f) c2 dt2 (update ext e (some f) c dt s)).isArmed = false := by
  have hcore : (update ext e (some f) c dt s).isCollided = true ∧
      (update ext e (some f) c dt s).isArmed = false := by
    simp only [update, hcol, Bool.false_eq_true, if_false]
    exact updateCore_crash ext e f c dt s hpos hspd
  have hstep := update_collided ext e (some f) c2 dt2 _ hcore.1
  rw [hstep]
  exact ⟨hcore.1, hcore.2, rfl, rfl⟩

/-- Terrain of constant height 5. -/
def terrain5 : Option (ℚ → ℚ → ℚ) := some fun _ _ => 5

/-- Armed state 1 unit below the terrain surface, descending at 12 units/s. -/
def crashState : State :=
  { initialState testEngine with
    isArmed := true
    position := ⟨0, 4, 0⟩
    velocity := ⟨0, -12, 0⟩ }

def halfThrottle : Controls := { throttle := 1/2, pitch := 0, roll := 0, yaw := 0 }

/-- Counterexample to C2 as stated: on the very tick that detects the crash
(position 4 below terrain height 5, speed 12 > 10) the state ends with
collided = true and armed = false, but the motor speeds are NOT zero — they
hold the mixed half-throttle commands [1/2, 1/2, 1/2, 1/2]; zeroing only
happens on the following tick. -/
theorem C2_crash_counterexample :
    crashState.position.y < 5 ∧
    10 < testExt.sqrt crashState.velocity.lengthSq ∧
    (update testExt testEngine terrain5 halfThrottle (1/120) crashState).isCollided = true ∧
    (update testExt testEngine terrain5 halfThrottle (1/120) crashState).isArmed = false ∧
    (update testExt testEngine terrain5 halfThrottle (1/120) crashState).motorSpeeds =
      [1/2, 1/2, 1/2, 1/2] ∧
    (update testExt testEngine terrain5 halfThrottle (1/120) crashState).motorSpeeds ≠
      List.replicate 4 0 := by
  have hpos : crashState.position.y < (5 : ℚ) := by
    norm_num [crashState, initialState]
  have hspd : (10 : ℚ) < testExt.sqrt crashState.velocity.lengthSq := by
    norm_num [crashState, initialState, testExt, testSqrt, Vec3.lengthSq]
  have hcol : crashState.isCollided = false := rfl
  have hcore : (update testExt testEngine terrain5 halfThrottle (1/120) crashState).isCollided = true ∧
      (update testExt testEngine terrain5 halfThrottle (1/120) crashState).isArmed = false := by
    simp only [update, hcol, Bool.false_eq_true, if_false, terrain5]
    exact updateCore_crash testExt testEngine (fun _ _ => 5) halfThrottle (1/120) crashState
      hpos hspd
  have hspeeds : (update testExt testEngine terrain5 halfThrottle (1/120)
      crashState).motorSpeeds = [1/2, 1/2, 1/2, 1/2] := by
    simp only [update, hcol, Bool.false_eq_true, if_false]
    rw [updateCore_motorSpeeds, if_pos (by rfl : crashState.isArmed = true),
      updateMotorSpeeds_eq_clamped]
    norm_num [testEngine, mkEngine, testConfig, getMotorCount, quadMixCommands, halfThrottle]
  refine ⟨hpos, hspd, hcore.1, hcore.2, hspeeds, ?_⟩
  rw [hspeeds]
  norm_num [List.replicate]

/-- Witness for C2 (amended): the concrete crash tick ends collided, and
the following tick reports armed = false with zeroed motors. -/
theorem C2_crash_next_tick_zeroing_witness :
    crashState.isCollided = false ∧
    crashState.position.y < (5 : ℚ) ∧
    10 < testExt.sqrt crashState.velocity.lengthSq ∧
    (update testExt testEngine (some fun _ _ => 5) halfThrottle (1/120) crashState).isCollided
      = true ∧
    (update testExt testEngine (some fun _ _ => 5) testControls (1/60)
      (update testExt testEngine (some fun _ _ => 5) halfThrottle (1/120)
        crashState)).isArmed = false := by
  have hpos : crashState.position.y < (5 : ℚ) := by
    norm_num [crashState, initialState]
  have hspd : (10 : ℚ) < testExt.sqrt crashState.velocity.lengthSq := by
    norm_num [crashState, initialState, testExt, testSqrt, Vec3.lengthSq]
  have h := C2_crash_next_tick_zeroing testExt testEngine (fun _ _ => 5) halfThrottle
    testControls (1/120) (1/60) crashState rfl hpos hspd
  exact ⟨rfl, hpos, hspd, h.1, h.2.2.2⟩

/- ### C3: ground response happens at the fixed 0.1 floor, not at terrain -/

/-- Disarmed state resting just below the fixed ground floor. -/
def lowState : State :=
  { initialState testEngine with position := ⟨0, 1/20, 0⟩, velocity := ⟨0, 0, 0⟩ }

/-- Disarmed state above terrain height 5, descending fast enough that one
dt = 1/10 tick integrates it below the terrain surface. -/
def c3State : State :=
  { initialState testEngine with position := ⟨0, 6, 0⟩, velocity := ⟨0, -12, 0⟩ }

/-- C3 (amended): after integration, updateLinearMotion clamps position.y
at the fixed height 0.1 — not at the terrain height — and only there
applies the bounce (−0.3 on vertical velocity) and friction (0.8 on
horizontal velocity; hard zero when disarmed).  The terrain-height clamp
lives in checkCollisions (run at the start of a tick on the
pre-integration position) and applies no velocity response at all. -/
theorem C3_fixed_floor_bounce (ext : ExtFns) (t : Option (ℚ → ℚ → ℚ)) (e : Engine)
    (forces : Vec3) (dt : ℚ) (s s2 : State)
    (hy : (s.position.add ((s.velocity.add
      ((forces.divideScalar e.totalMass).multiplyScalar dt)).multiplyScalar dt)).y < 0.1) :
    (updateLinearMotion e forces dt s).position.y = 0.1 ∧
    (updateLinearMotion e forces dt s).velocity.y =
      max 0 ((s.velocity.add
        ((forces.divideScalar e.totalMass).multiplyScalar dt)).y * (-0.3)) ∧
    (updateLinearMotion e forces dt s).velocity.x =
      (if s.isArmed then (s.velocity.add
        ((forces.divideScalar e.totalMass).multiplyScalar dt)).x * 0.8 else 0) ∧
    (updateLinearMotion e forces dt s).velocity.z =
      (if s.isArmed then (s.velocity.add
        ((forces.divideScalar e.totalMass).multiplyScalar dt)).z * 0.8 else 0) ∧
    (checkCollisions ext t s2).velocity = s2.velocity := by
  refine ⟨?_, ?_, ?_, ?_, checkCollisions_velocity ext t s2⟩ <;>
    · simp only [updateLinearMotion]
      rw [if_pos hy]
      cases ha : s.isArmed <;> simp [ha]

/-- Witness for C3 (amended) just above the fixed floor: from rest at
height 0.05 with no forces the tick clamps to 0.1 and zeroes velocity. -/
theorem C3_fixed_floor_bounce_witness :
    ((lowState.position.add ((lowState.velocity.add
      (((Vec3.mk 0 0 0).divideScalar testEngine.totalMass).multiplyScalar 1)).multiplyScalar 1)).y
        < 0.1) ∧
    (updateLinearMotion testEngine ⟨0, 0, 0⟩ 1 lowState).position.y = 0.1 ∧
    (updateLinearMotion testEngine ⟨0, 0, 0⟩ 1 lowState).velocity.y = 0 := by
  have hy : ((lowState.position.add ((lowState.velocity.add
      (((Vec3.mk 0 0 0).divideScalar testEngine.totalMass).multiplyScalar 1)).multiplyScalar 1)).y
        < 0.1) := by
    norm_num [lowState, initialState, Vec3.add, Vec3.multiplyScalar, Vec3.divideScalar]
  have h := C3_fixed_floor_bounce testExt none testEngine ⟨0, 0, 0⟩ 1 lowState lowState hy
  refine ⟨hy, h.1, ?_⟩
  rw [h.2.1]
  norm_num [lowState, initialState, Vec3.add, Vec3.multiplyScalar, Vec3.divideScalar]

/-- Counterexample to C3 as stated: a tick whose integration leaves the
aircraft at height ≈4.81, below the terrain height 5 at its new horizontal
position, ends with position.y still below 5 (no clamp to the terrain
height) and with vertical velocity still negative (no bounce applied). -/
theorem C3_terrain_counterexample :
    (update testExt testEngine terrain5 testControls (1/10) c3State).position.y < 5 ∧
    (update testExt testEngine terrain5 testControls (1/10) c3State).velocity.y < 0 := by
  constructor <;>
  · norm_num [update, updateCore, c3State, initialState, updateMotorSpeeds, checkCollisions,
      updateLinearMotion, updateAngularMotion, updateBattery, calculateForces, calculateTorques,
      angularInertia, mkEngine, testEngine, testConfig, testEnv, testExt, testSqrt, terrain5,
      getMotorCount, calculateTotalMass, getPayloadMass, payloadMassTable,
      frameMaterialMultiplier, calculateAirDensity, testControls, Vec3.add, Vec3.sub,
      Vec3.multiplyScalar, Vec3.divideScalar, Vec3.length, Vec3.lengthSq, Vec3.normalize,
      Vec3.applyQuaternion, Vec3.dot, Quat.mul, Quat.normalize, List.replicate,
      quadMixCommands]

/- ### C9: ReturnToHome pitch command and auto-transition -/

/-- C9: during applyRTH, with d the horizontal distance to home as the
controller computes it: when d ≥ 0.5 the commanded pitch is the clamp of
0.1·d into [0.1, 0.5] (so it always lies in [0.1, 0.5]) and the flight
mode is unchanged; when d < 0.5 the commanded pitch becomes 0, and if
additionally altitude < 0.2 the mode auto-transitions back to 'stabilize'
(clearing the returnToHome flag). -/
theorem C9_rth_pitch (ext : ExtFns) (home : Vec3) (fc : FlightController)
    (phys : State) (dt now : ℚ) :
    ((0.5 : ℚ) ≤ Vec3.length ext (Vec3.sub ⟨home.x, 0, home.z⟩
        ⟨phys.position.x, 0, phys.position.z⟩) →
      (applyRTH ext home fc phys dt now).controls.pitch =
        max 0.1 (min 0.5 (Vec3.length ext (Vec3.sub ⟨home.x, 0, home.z⟩
          ⟨phys.position.x, 0, phys.position.z⟩) * 0.1)) ∧
      (0.1 : ℚ) ≤ (applyRTH ext home fc phys dt now).controls.pitch ∧
      (applyRTH ext home fc phys dt now).controls.pitch ≤ 0.5 ∧
      (applyRTH ext home fc phys dt now).flightMode = fc.flightMode ∧
      (applyRTH ext home fc phys dt now).returnToHome = fc.returnToHome) ∧
    (Vec3.length ext (Vec3.sub ⟨home.x, 0, home.z⟩
        ⟨phys.position.x, 0, phys.position.z⟩) < 0.5 →
      (applyRTH ext home fc phys dt now).controls.pitch = 0 ∧
      (phys.position.y < 0.2 →
        (applyRTH ext home fc phys dt now).flightMode = "stabilize" ∧
        (applyRTH ext home fc phys dt now).returnToHome = false)) := by
  constructor
  · intro hd
    have hnot := not_lt.mpr hd
    simp only [applyRTH]
    rw [if_neg hnot]
    refine ⟨rfl, le_max_left _ _, max_le (by norm_num) (min_le_left _ _), rfl, rfl⟩
  · intro hd
    simp only [applyRTH]
    rw [if_pos hd]
    constructor
    · split <;> rfl
    · intro hy
      rw [if_pos hy]
      exact ⟨rfl, rfl⟩

/-- RTH-engaged aircraft 5 horizontal units from home. -/
def rthFarState : State :=
  { initialState testEngine with position := ⟨0, 3, 0⟩ }

/-- RTH-engaged aircraft at the home horizontal position near the ground. -/
def rthNearState : State :=
  { initialState testEngine with position := ⟨0, 1/10, 0⟩ }

/-- Witness for C9: at horizontal distance 5 the pitch command is 0.5 (the
clamp of 0.1·5); at distance 0 with altitude 0.1 the pitch command is 0
and the mode reverts to 'stabilize'. -/
theorem C9_rth_pitch_witness :
    (0.5 : ℚ) ≤ Vec3.length testExt (Vec3.sub ⟨3, 0, 4⟩ ⟨0, 0, 0⟩) ∧
    (applyRTH testExt ⟨3, 1, 4⟩ mkFlightController rthFarState (1/120) 0).controls.pitch
      = 1/2 ∧
    Vec3.length testExt (Vec3.sub ⟨0, 0, 0⟩ ⟨0, 0, 0⟩) < 0.5 ∧
    rthNearState.position.y < 0.2 ∧
    (applyRTH testExt ⟨0, 0, 0⟩ mkFlightController rthNearState (1/120) 0).controls.pitch
      = 0 ∧
    (applyRTH testExt ⟨0, 0, 0⟩ mkFlightController rthNearState (1/120) 0).flightMode
      = "stabilize" := by
  have hdfar : (0.5 : ℚ) ≤ Vec3.length testExt (Vec3.sub (⟨3, 0, 4⟩ : Vec3)
      (⟨rthFarState.position.x, 0, rthFarState.position.z⟩ : Vec3)) := by
    norm_num [Vec3.length, Vec3.sub, Vec3.lengthSq, testExt, testSqrt, rthFarState,
      initialState]
  have hdnear : Vec3.length testExt (Vec3.sub (⟨0, 0, 0⟩ : Vec3)
      (⟨rthNearState.position.x, 0, rthNearState.position.z⟩ : Vec3)) < 0.5 := by
    norm_num [Vec3.length, Vec3.sub, Vec3.lengthSq, testExt, testSqrt, rthNearState,
      initialState]
  have hy : rthNearState.position.y < 0.2 := by
    norm_num [rthNearState, initialState]
  have hfar := (C9_rth_pitch testExt ⟨3, 1, 4⟩ mkFlightController rthFarState (1/120) 0).1
    hdfar
  have hnear := (C9_rth_pitch testExt ⟨0, 0, 0⟩ mkFlightController rthNearState (1/120) 0).2
    hdnear
  refine ⟨?_, ?_, ?_, hy, hnear.1, (hnear.2 hy).1⟩
  · exact hdfar
  · rw [hfar.1]
    norm_num [Vec3.length, Vec3.sub, Vec3.lengthSq, testExt, testSqrt, rthFarState,
      initialState]
  · exact hdnear
